import Mathlib

/-!
Shallow embedding of `src/components/auth-card.tsx` from
daveyplate/better-auth-react.

The repository is a single React function component, `AuthCard`.  Its
`useState` hooks (lines 116-121 of the source) become the fields of
`AuthCard.AuthCardState`; the props that drive control flow (lines 97-114)
become `AuthCard.AuthCardConfig`; the `useEffect` reactions and the event
handlers become a step function over discrete UI events.  Interactions with
the outside world (calls on the better-auth client, the `navigate` prop,
browser navigation through a rendered anchor) are modelled as an emitted
list of `AuthCard.ExternalCall` values.
-/

namespace AuthCard

/-- Line 24: `export const authViews = ["login", "signup", "forgot-password",
"reset-password", "logout"] as const`. -/
def authViews : List String :=
  ["login", "signup", "forgot-password", "reset-password", "logout"]

/-- Line 25: `export type AuthView = typeof authViews[number]` — one of the
five view names. -/
inductive AuthView
  | login
  | signup
  | forgotPassword
  | resetPassword
  | logout
deriving DecidableEq

/-- The string literal each `AuthView` variant stands for in the source. -/
def AuthView.str : AuthView → String
  | .login => "login"
  | .signup => "signup"
  | .forgotPassword => "forgot-password"
  | .resetPassword => "reset-password"
  | .logout => "logout"

/-- Lines 149-150: `authViews.includes(path)` followed by the cast
`path as AuthView`.  `stringToView s` is `some v` exactly when `s` is one of
the five members of `authViews`, with `v` the corresponding variant (see
`stringToView_isSome_eq_contains` below). -/
def stringToView (s : String) : Option AuthView :=
  if s = "login" then some .login
  else if s = "signup" then some .signup
  else if s = "forgot-password" then some .forgotPassword
  else if s = "reset-password" then some .resetPassword
  else if s = "logout" then some .logout
  else none

/-- Accumulating scan for `lastSegment`: walk the characters, restarting
the accumulator at every `/`, so the final accumulator is the text after
the last `/` (the whole string when there is no `/`). -/
def lastSegAux : List Char → List Char → List Char
  | [], acc => acc.reverse
  | c :: cs, acc => if c = '/' then lastSegAux cs [] else lastSegAux cs (c :: acc)

/-- Line 147: `pathname.split("/").pop()`.  JavaScript `split` on a
one-character separator never returns an empty array and its last element
is exactly the text after the last `/`, so `pop` yields that text (the
whole string when there is no `/`, and `""` for `""`). -/
def lastSegment (p : String) : String :=
  ⟨lastSegAux p.data []⟩

/-- Lines 145-152, the `[pathname]` effect, as a pure view resolution.
`none` models an absent pathname prop; the source also treats the empty
string as absent because `if (!pathname) return` tests JavaScript
falsiness.  On a recognized final segment the view is adopted, otherwise
the current view is kept. -/
def resolveView (cur : AuthView) (pathname : Option String) : AuthView :=
  match pathname with
  | none => cur
  | some p =>
    if p = "" then cur
    else
      match stringToView (lastSegment p) with
      | some v => v
      | none => cur

/-- Lines 69-76 / 131-135.  The `variant` values `"default"` and
`"destructive"` of the source `AuthToastOptions`.  `destructive` is the
error severity. -/
inductive ToastVariant
  | default
  | destructive
deriving DecidableEq

/-- Lines 69-76: the toast record.  The optional `action` field of the
source type is never populated by this component (no call site constructs
one), so it is omitted from the embedding. -/
structure AuthToastOptions where
  description : String
  variant : ToastVariant
deriving DecidableEq

/-- The `error` object of a better-auth response: `{error?: {message?:
string}}` (line 128 destructures `const { error } = await ...`). -/
structure SignInError where
  message : Option String
deriving DecidableEq

/-- The response of `authClient.signIn.email` as consumed by `onSubmit`. -/
structure SignInResponse where
  error : Option SignInError
deriving DecidableEq

/-- Line 131: JavaScript truthiness of `error?.message` together with the
value `error.message` read on line 133.  `some m` exactly when an error
object is present and carries a non-empty message `m`. -/
def errMessage : Option SignInError → Option String
  | some e =>
    match e.message with
    | some m => if m = "" then none else some m
    | none => none
  | none => none

/-- Operations the better-auth client offers to this component
(`signIn.email`, `signIn.magicLink`, `signUp.email`, `forgetPassword`,
`resetPassword`, `signOut`).  The component's own code only ever invokes
`signInEmail` (line 128). -/
inductive BackendCall
  | signInEmail (email password : String)
  | signInMagicLink (email : String)
  | signUpEmail (email password : String)
  | forgetPassword (email : String)
  | resetPassword (newPassword : String)
  | signOut
deriving DecidableEq

/-- Observable calls out of the component:
`backend` — a call on the auth client;
`navigate` — the host navigation function (the `navigate` prop, line 113,
  falling back to `nextRouter.push` or `defaultNavigate`);
`linkNavigate` — browser navigation caused by the rendered link component
  (the `LinkComponent`/anchor `href`, lines 344-348). -/
inductive ExternalCall
  | backend (c : BackendCall)
  | navigate (url : String)
  | linkNavigate (href : String)
deriving DecidableEq

/-- `true` exactly on a `navigate` call (the `navigate` prop itself, not a
rendered link). -/
def isNavigateCall : ExternalCall → Bool
  | .navigate _ => true
  | _ => false

/-- The `useState` hooks of `AuthCard`, lines 116-121, in declaration
order: `email`, `password`, `loading`, `view`, `isMagicLink`,
`authToast`. -/
structure AuthCardState where
  email : String
  password : String
  loading : Bool
  view : AuthView
  isMagicLink : Bool
  authToast : Option AuthToastOptions
deriving DecidableEq

/-- The control-flow-relevant props, lines 97-111, with their source
defaults.  `magicLink`, `startWithMagicLink` and `disableRouting` are
optional booleans whose absence is falsy. -/
structure AuthCardConfig where
  initialView : AuthView := .login
  emailPassword : Bool := true
  magicLink : Bool := false
  startWithMagicLink : Bool := false
  disableRouting : Bool := false
deriving DecidableEq

/-- Lines 116-121: the initial hook values.  `isMagicLink` starts as
`startWithMagicLink || !emailPassword` (line 120). -/
def initState (cfg : AuthCardConfig) : AuthCardState :=
  { email := ""
    password := ""
    loading := false
    view := cfg.initialView
    isMagicLink := cfg.startWithMagicLink || !cfg.emailPassword
    authToast := none }

/-- Lines 154-158, the `[view]` effect: `if (view != "login")
setIsMagicLink(false)`. -/
def runViewEffect (s : AuthCardState) : AuthCardState :=
  if s.view ≠ AuthView.login then { s with isMagicLink := false } else s

/-- A `setView v` call followed by React's re-render: if `v` equals the
current view React bails out and the `[view]` effect does not re-run;
otherwise the view is committed and the `[view]` effect runs against the
new view. -/
def setViewWithEffect (s : AuthCardState) (v : AuthView) : AuthCardState :=
  if v = s.view then s else runViewEffect { s with view := v }

/-- Line 240: the submit button's `disabled={loading}`. -/
def submitButtonDisabled (s : AuthCardState) : Bool :=
  s.loading

/-- Line 294: the magic-link provider button's
`disabled={view != "login" || !magicLink || isMagicLink}`. -/
def magicLinkButtonDisabled (cfg : AuthCardConfig) (s : AuthCardState) : Bool :=
  decide (s.view ≠ AuthView.login) || !cfg.magicLink || s.isMagicLink

/-- Line 313: the password provider button's
`disabled={view != "login" || !emailPassword || !isMagicLink}`. -/
def passwordProviderButtonDisabled (cfg : AuthCardConfig) (s : AuthCardState) : Bool :=
  decide (s.view ≠ AuthView.login) || !cfg.emailPassword || !s.isMagicLink

/-- Primitive steps of the `onSubmit` handler body, lines 123-137: state
setter calls and the backend call, in program order. -/
inductive SubmitAction
  | setAuthToast (t : Option AuthToastOptions)
  | setLoading (b : Bool)
  | backendCall (c : BackendCall)
deriving DecidableEq

/-- `true` exactly on the backend-call step. -/
def SubmitAction.isBackendCall : SubmitAction → Bool
  | .backendCall _ => true
  | _ => false

/-- Lines 126-128, the synchronous part of `onSubmit` up to the `await`
suspension point: `setAuthToast(null); setLoading(true); await
authClient.signIn.email({ email, password })`.  The captured `email` and
`password` are the current state values.  Note the call is
`signIn.email` unconditionally — `isMagicLink` and `view` are not
consulted. -/
def submitSyncActions (s : AuthCardState) : List SubmitAction :=
  [ .setAuthToast none
  , .setLoading true
  , .backendCall (.signInEmail s.email s.password) ]

/-- Lines 129-136, the continuation after the response arrives:
`setLoading(false); if (error?.message) setAuthToast({ description:
error.message, variant: "destructive" })`. -/
def submitResumeActions (resp : SignInResponse) : List SubmitAction :=
  SubmitAction.setLoading false ::
    (match errMessage resp.error with
     | some m => [SubmitAction.setAuthToast (some { description := m, variant := .destructive })]
     | none => [])

/-- The whole `onSubmit` execution, lines 123-137, serialized. -/
def onSubmitActions (s : AuthCardState) (resp : SignInResponse) : List SubmitAction :=
  submitSyncActions s ++ submitResumeActions resp

/-- Effect of one `onSubmit` step on the hook state. -/
def applySubmitAction (s : AuthCardState) : SubmitAction → AuthCardState
  | .setAuthToast t => { s with authToast := t }
  | .setLoading b => { s with loading := b }
  | .backendCall _ => s

/-- Run a list of `onSubmit` steps over the hook state. -/
def applyActions (s : AuthCardState) (l : List SubmitAction) : AuthCardState :=
  l.foldl applySubmitAction s

/-- The backend calls a list of `onSubmit` steps issues, in order. -/
def backendCallsOf (l : List SubmitAction) : List BackendCall :=
  l.filterMap fun a =>
    match a with
    | .backendCall c => some c
    | _ => none

/-- Discrete UI events the widget reacts to.
`pathChange p` — the host pathname prop changed to `p` (lines 145-152);
`toggleFooter` — a click on the footer login/signup toggle (lines 334-353);
`enableMagicLink` / `disableMagicLink` — clicks on the provider toggle
buttons (lines 289-300 and 308-319); a disabled button cannot be clicked;
`editEmail` / `editPassword` — input `onChange` (lines 195-197, 231);
`submitStart` — the form submit firing (line 184); a disabled submit
button blocks form submission, which is the component's only
double-submit guard;
`response r` — the outstanding backend call resolving with `r`
(lines 128-136). -/
inductive Event
  | pathChange (p : Option String)
  | toggleFooter
  | enableMagicLink
  | disableMagicLink
  | editEmail (v : String)
  | editPassword (v : String)
  | submitStart
  | response (r : SignInResponse)
deriving DecidableEq

/-- One event step of the widget: the handler (and any effect it
triggers) applied to the state, together with the external calls it
makes.  For `toggleFooter` with routing enabled, the source renders the
button `asChild` around `LinkComponent` (lines 334-353); the default
`DefaultLink` (lines 27-33) destructures only `href`, `className` and
`children`, dropping the click handler the slot merges in, so the click
performs only the anchor navigation to the fixed `href` and does not call
`setView`. -/
def step (cfg : AuthCardConfig) (s : AuthCardState) : Event → AuthCardState × List ExternalCall
  | .pathChange p => (setViewWithEffect s (resolveView s.view p), [])
  | .toggleFooter =>
    if cfg.disableRouting then
      (setViewWithEffect s (if s.view = AuthView.signup then .login else .signup), [])
    else
      (s, [.linkNavigate (if s.view = AuthView.signup then "/auth/login" else "/auth/signup")])
  | .enableMagicLink =>
    if magicLinkButtonDisabled cfg s then (s, [])
    else ({ s with isMagicLink := true }, [])
  | .disableMagicLink =>
    if passwordProviderButtonDisabled cfg s then (s, [])
    else ({ s with isMagicLink := false }, [])
  | .editEmail v => ({ s with email := v }, [])
  | .editPassword v => ({ s with password := v }, [])
  | .submitStart =>
    if submitButtonDisabled s then (s, [])
    else
      (applyActions s (submitSyncActions s),
        (backendCallsOf (submitSyncActions s)).map ExternalCall.backend)
  | .response r => (applyActions s (submitResumeActions r), [])

/-- Mount: initial hook values, then the first effect pass.  Within that
pass the `[pathname]` effect (line 145) and the `[view]` effect (line 154)
both read the initial render's `view`; the `setView` from the pathname
effect commits afterwards, and the `[view]` effect re-runs only if the
view actually changed. -/
def mountState (cfg : AuthCardConfig) (p : Option String) : AuthCardState :=
  let s0 := initState cfg
  let s1 := runViewEffect s0
  setViewWithEffect s1 (resolveView s0.view p)

/-- Fold a list of events through `step`, keeping the state. -/
def runState (cfg : AuthCardConfig) : AuthCardState → List Event → AuthCardState
  | s, [] => s
  | s, e :: es => runState cfg (step cfg s e).1 es

/-- The `user` entity inside a session observation; `isAnonymous` is an
optional flag (the source reads it through a cast and optional chaining,
line 140). -/
structure SessionUser where
  isAnonymous : Option Bool
deriving DecidableEq

/-- One session observation value: `sessionData` as returned by
`authClient.useSession()` (line 115).  The `user` field is read through
optional chaining. -/
structure SessionData where
  user : Option SessionUser
deriving DecidableEq

/-- Line 140: JavaScript truthiness of
`(sessionData.user as Record<string, unknown>)?.isAnonymous` — a missing
user or a missing flag is falsy. -/
def userIsAnonymous (sd : SessionData) : Bool :=
  match sd.user with
  | some u => u.isAnonymous.getD false
  | none => false

/-- Lines 139-143, the `[sessionData]` effect body, run once per change of
the observation: `if (sessionData && !sessionData.user?.isAnonymous)
navigate("/")`.  `none` models both an absent and a pending observation
(better-auth reports `data: null` while pending). -/
def sessionEffectCalls : Option SessionData → List ExternalCall
  | some sd => if userIsAnonymous sd then [] else [ExternalCall.navigate "/"]
  | none => []

/-- An observation is "present with a user entity not flagged anonymous". -/
def presentNonAnonymous : Option SessionData → Bool
  | some sd => !userIsAnonymous sd
  | none => false

/-- The navigation calls over a whole sequence of session observation
ticks; the effect's dependency list `[sessionData]` makes its body run
exactly once per distinct observation, so the trace is the concatenation
of the per-tick calls. -/
def sessionTraceNavs : List (Option SessionData) → List ExternalCall
  | [] => []
  | o :: obs => sessionEffectCalls o ++ sessionTraceNavs obs

/-- The validation-relevant attributes of a rendered `Input`. -/
structure InputAttrs where
  required : Bool
  disabled : Bool
deriving DecidableEq

/-- Lines 190-199: the email input carries the `required` attribute and is
never disabled. -/
def emailInputAttrs : InputAttrs :=
  { required := true, disabled := false }

/-- Lines 225-233: the password input carries no `required` attribute at
all (HTML default `false`) and `disabled={isMagicLink}`. -/
def passwordInputAttrs (isMagicLink : Bool) : InputAttrs :=
  { required := false, disabled := isMagicLink }

/-- `true` exactly on a call into the authentication backend. -/
def isBackendExtCall : ExternalCall → Bool
  | .backend _ => true
  | _ => false

/-- `true` exactly on a magic-link request. -/
def isMagicLinkCall : BackendCall → Bool
  | .signInMagicLink _ => true
  | _ => false

/-- The invariant of claim C2: the magic-link mode is off whenever the
active view is not `login`. -/
def mlInv (s : AuthCardState) : Prop :=
  s.view ≠ AuthView.login → s.isMagicLink = false

theorem stringToView_str (v : AuthView) : stringToView (AuthView.str v) = some v := by
  cases v <;> decide

theorem str_ne_empty (v : AuthView) : AuthView.str v ≠ "" := by
  cases v <;> decide

theorem contains_of_stringToView {s : String} {v : AuthView}
    (h : stringToView s = some v) : authViews.contains s = true := by
  unfold stringToView at h
  split_ifs at h with h1 h2 h3 h4 h5
  · subst h1; decide
  · subst h2; decide
  · subst h3; decide
  · subst h4; decide
  · subst h5; decide

theorem runViewEffect_view (s : AuthCardState) : (runViewEffect s).view = s.view := by
  unfold runViewEffect
  split <;> rfl

theorem runViewEffect_loading (s : AuthCardState) :
    (runViewEffect s).loading = s.loading := by
  unfold runViewEffect
  split <;> rfl

theorem setViewWithEffect_view (s : AuthCardState) (v : AuthView) :
    (setViewWithEffect s v).view = v := by
  unfold setViewWithEffect
  split
  · rename_i h; exact h.symm
  · exact runViewEffect_view _

theorem setViewWithEffect_loading (s : AuthCardState) (v : AuthView) :
    (setViewWithEffect s v).loading = s.loading := by
  unfold setViewWithEffect
  split
  · rfl
  · exact runViewEffect_loading _

theorem setViewWithEffect_self (s : AuthCardState) : setViewWithEffect s s.view = s := by
  simp [setViewWithEffect]

theorem applyActions_view (s : AuthCardState) (l : List SubmitAction) :
    (applyActions s l).view = s.view ∧ (applyActions s l).isMagicLink = s.isMagicLink := by
  induction l generalizing s with
  | nil => exact ⟨rfl, rfl⟩
  | cons a l ih =>
    cases a <;> simpa [applyActions, applySubmitAction] using ih _

theorem mlInv_runViewEffect (s : AuthCardState) : mlInv (runViewEffect s) := by
  unfold mlInv runViewEffect
  split
  · intro _; rfl
  · rename_i hc; intro h; exact absurd h hc

theorem mlInv_setViewWithEffect (s : AuthCardState) (v : AuthView) (hs : mlInv s) :
    mlInv (setViewWithEffect s v) := by
  unfold setViewWithEffect
  split
  · exact hs
  · exact mlInv_runViewEffect _

theorem mlInv_step (cfg : AuthCardConfig) (s : AuthCardState) (e : Event)
    (hs : mlInv s) : mlInv (step cfg s e).1 := by
  cases e with
  | pathChange p => exact mlInv_setViewWithEffect _ _ hs
  | toggleFooter =>
    simp only [step]
    split
    · exact mlInv_setViewWithEffect _ _ hs
    · exact hs
  | enableMagicLink =>
    simp only [step]
    split
    · exact hs
    · rename_i hc
      intro h
      simp [magicLinkButtonDisabled] at hc
      exact absurd hc.1.1 h
  | disableMagicLink =>
    simp only [step]
    split
    · exact hs
    · intro _; rfl
  | editEmail v => intro h; exact hs h
  | editPassword v => intro h; exact hs h
  | submitStart =>
    simp only [step]
    split
    · exact hs
    · intro h
      rw [(applyActions_view _ _).2]
      exact hs (by rwa [(applyActions_view _ _).1] at h)
  | response r =>
    intro h
    rw [show (step cfg s (Event.response r)).1 = applyActions s (submitResumeActions r) from rfl] at h ⊢
    rw [(applyActions_view _ _).2]
    exact hs (by rwa [(applyActions_view _ _).1] at h)

theorem mlInv_runState (cfg : AuthCardConfig) (s : AuthCardState) (es : List Event)
    (hs : mlInv s) : mlInv (runState cfg s es) := by
  induction es generalizing s with
  | nil => exact hs
  | cons e es ih => exact ih _ (mlInv_step cfg s e hs)

theorem mlInv_mountState (cfg : AuthCardConfig) (p : Option String) :
    mlInv (mountState cfg p) :=
  mlInv_setViewWithEffect _ _ (mlInv_runViewEffect _)

/-- C1: for every host path whose final segment (the text after the last
`/`) exactly equals one of the five view names, the path-change reaction
sets the active view to that name; for a path whose final segment is
anything else, and for an absent path, the state is retained unchanged
(the reaction is a total function, so no error is raised either way). -/
theorem c1_path_resolution (cfg : AuthCardConfig) (s : AuthCardState)
    (p : String) (v : AuthView) :
    (lastSegment p = AuthView.str v →
      (step cfg s (Event.pathChange (some p))).1.view = v) ∧
    (authViews.contains (lastSegment p) = false →
      (step cfg s (Event.pathChange (some p))).1 = s) ∧
    (step cfg s (Event.pathChange none)).1 = s ∧
    (step cfg s (Event.pathChange (some p))).2 = [] := by
  refine ⟨?_, ?_, ?_, rfl⟩
  · intro h
    show (setViewWithEffect s (resolveView s.view (some p))).view = v
    by_cases hp : p = ""
    · subst hp
      have h0 : lastSegment "" = "" := by decide
      rw [h0] at h
      exact absurd h.symm (str_ne_empty v)
    · have hr : resolveView s.view (some p) = v := by
        simp only [resolveView]
        rw [if_neg hp, h, stringToView_str]
      rw [hr, setViewWithEffect_view]
  · intro h
    show setViewWithEffect s (resolveView s.view (some p)) = s
    have hr : resolveView s.view (some p) = s.view := by
      simp only [resolveView]
      by_cases hp : p = ""
      · rw [if_pos hp]
      · rw [if_neg hp]
        cases hsv : stringToView (lastSegment p) with
        | none => rfl
        | some u =>
          have hc := contains_of_stringToView hsv
          rw [h] at hc
          exact Bool.noConfusion hc
    rw [hr, setViewWithEffect_self]
  · show setViewWithEffect s (resolveView s.view none) = s
    exact setViewWithEffect_self s

/-- Witness for C1 at concrete inputs: a path ending in `reset-password`
adopts that view, a path ending in an unrecognized segment leaves the
state untouched. -/
theorem c1_witness :
    (step {} ⟨"", "", false, AuthView.login, false, none⟩
        (Event.pathChange (some "/auth/reset-password"))).1.view = AuthView.resetPassword ∧
    (step {} ⟨"", "", false, AuthView.signup, false, none⟩
        (Event.pathChange (some "/auth/settings"))).1
      = ⟨"", "", false, AuthView.signup, false, none⟩ :=
  ⟨(c1_path_resolution {} ⟨"", "", false, AuthView.login, false, none⟩
      "/auth/reset-password" AuthView.resetPassword).1 (by decide),
   (c1_path_resolution {} ⟨"", "", false, AuthView.signup, false, none⟩
      "/auth/settings" AuthView.login).2.1 (by decide)⟩

/-- C2: in every reachable state — any configuration, any mount pathname,
then any sequence of events (path changes, view toggles, magic-link
toggles, submission starts and responses) — the magic-link mode is false
whenever the active view is not `login`. -/
theorem c2_magic_link_invariant (cfg : AuthCardConfig) (p : Option String)
    (es : List Event)
    (h : (runState cfg (mountState cfg p) es).view ≠ AuthView.login) :
    (runState cfg (mountState cfg p) es).isMagicLink = false :=
  mlInv_runState cfg (mountState cfg p) es (mlInv_mountState cfg p) h

/-- Witness for C2: a widget that starts on `login` with the magic-link
mode on is driven to `signup` by a path change; the reached view is not
`login` and the magic-link mode has been reset to false. -/
theorem c2_witness :
    (runState ({ magicLink := true, startWithMagicLink := true } : AuthCardConfig)
        (mountState ({ magicLink := true, startWithMagicLink := true } : AuthCardConfig) none)
        [Event.pathChange (some "/auth/signup")]).view ≠ AuthView.login ∧
    (runState ({ magicLink := true, startWithMagicLink := true } : AuthCardConfig)
        (mountState ({ magicLink := true, startWithMagicLink := true } : AuthCardConfig) none)
        [Event.pathChange (some "/auth/signup")]).isMagicLink = false :=
  ⟨by decide,
   c2_magic_link_invariant ({ magicLink := true, startWithMagicLink := true } : AuthCardConfig)
     none [Event.pathChange (some "/auth/signup")] (by decide)⟩

/-- C3: the session-observation reaction invokes the host navigation
function with the default landing path `/` exactly once per observation
tick that is present with a non-anonymous user, and not at all for an
absent or pending observation (`none`) or for a present anonymous user —
both per tick and over every sequence of observation ticks. -/
theorem c3_session_navigation :
    (∀ o : Option SessionData,
      sessionEffectCalls o =
        if presentNonAnonymous o then [ExternalCall.navigate "/"] else []) ∧
    (∀ obs : List (Option SessionData),
      sessionTraceNavs obs =
        List.replicate (obs.countP presentNonAnonymous) (ExternalCall.navigate "/")) := by
  have h1 : ∀ o : Option SessionData,
      sessionEffectCalls o =
        if presentNonAnonymous o then [ExternalCall.navigate "/"] else [] := by
    intro o
    cases o with
    | none => rfl
    | some sd =>
      by_cases h : userIsAnonymous sd <;>
        simp [sessionEffectCalls, presentNonAnonymous, h]
  refine ⟨h1, ?_⟩
  intro obs
  induction obs with
  | nil => rfl
  | cons o obs ih =>
    rw [show sessionTraceNavs (o :: obs) = sessionEffectCalls o ++ sessionTraceNavs obs
          from rfl,
        h1 o, ih, List.countP_cons]
    by_cases h : presentNonAnonymous o = true
    · simp [h, List.replicate_succ]
    · simp [h]

/-- C4: for every completed submission, the in-flight flag is cleared
before any notification write of that completion (every toast write in the
resume part of the handler is preceded by the `setLoading false`); when
the response carries an error with a non-empty message the notification
ends up exactly that verbatim message with destructive (error) severity,
otherwise it stays null; and the flag ends up cleared, re-enabling the
submit control. -/
theorem c4_completion_order (s : AuthCardState) (resp : SignInResponse) :
    (∀ j o, (submitResumeActions resp).get? j = some (SubmitAction.setAuthToast o) →
      ∃ i, i < j ∧
        (submitResumeActions resp).get? i = some (SubmitAction.setLoading false)) ∧
    (∀ m, errMessage resp.error = some m →
      (applyActions s (onSubmitActions s resp)).authToast =
        some { description := m, variant := ToastVariant.destructive }) ∧
    (errMessage resp.error = none →
      (applyActions s (onSubmitActions s resp)).authToast = none) ∧
    (applyActions s (onSubmitActions s resp)).loading = false := by
  cases hm : errMessage resp.error with
  | none =>
    have hres : submitResumeActions resp = [SubmitAction.setLoading false] := by
      simp [submitResumeActions, hm]
    refine ⟨?_, ?_, fun _ => ?_, ?_⟩
    · intro j o hj
      rw [hres] at hj
      cases j with
      | zero => exact SubmitAction.noConfusion (Option.some.inj hj)
      | succ j => exact Option.noConfusion hj
    · intro m hm'
      exact Option.noConfusion hm'
    · simp [onSubmitActions, submitSyncActions, hres, applyActions, applySubmitAction]
    · simp [onSubmitActions, submitSyncActions, hres, applyActions, applySubmitAction]
  | some m0 =>
    have hres : submitResumeActions resp =
        [SubmitAction.setLoading false,
         SubmitAction.setAuthToast
           (some { description := m0, variant := ToastVariant.destructive })] := by
      simp [submitResumeActions, hm]
    refine ⟨?_, ?_, fun hn => ?_, ?_⟩
    · intro j o hj
      rw [hres] at hj
      cases j with
      | zero => exact SubmitAction.noConfusion (Option.some.inj hj)
      | succ j => exact ⟨0, Nat.succ_pos j, by rw [hres]; rfl⟩
    · intro m hm'
      have hmm : m0 = m := Option.some.inj hm'
      subst hmm
      simp [onSubmitActions, submitSyncActions, hres, applyActions, applySubmitAction]
    · exact Option.noConfusion hn
    · simp [onSubmitActions, submitSyncActions, hres, applyActions, applySubmitAction]

/-- Witness for C4, the spec's scenario: email `a@b.com`, password `x`,
backend error `Invalid credentials` — the notification becomes that
verbatim message with destructive severity and the in-flight flag is
cleared. -/
theorem c4_witness :
    (applyActions ⟨"a@b.com", "x", false, AuthView.login, false, none⟩
        (onSubmitActions ⟨"a@b.com", "x", false, AuthView.login, false, none⟩
          ⟨some ⟨some "Invalid credentials"⟩⟩)).authToast
      = some { description := "Invalid credentials", variant := ToastVariant.destructive } ∧
    (applyActions ⟨"a@b.com", "x", false, AuthView.login, false, none⟩
        (onSubmitActions ⟨"a@b.com", "x", false, AuthView.login, false, none⟩
          ⟨some ⟨some "Invalid credentials"⟩⟩)).loading = false :=
  ⟨(c4_completion_order ⟨"a@b.com", "x", false, AuthView.login, false, none⟩
      ⟨some ⟨some "Invalid credentials"⟩⟩).2.1 "Invalid credentials" (by decide),
   (c4_completion_order ⟨"a@b.com", "x", false, AuthView.login, false, none⟩
      ⟨some ⟨some "Invalid credentials"⟩⟩).2.2.2⟩

/-- C5: every submit clears the notification and sets the in-flight flag
in the synchronous prefix before a backend call is issued (the part of
the handler before the first backend call makes no request and already
has notification null and flag set), so the notification is null and the
flag is set at the suspension point, i.e. at every point strictly between
submit start and the arrival of the response; exactly one request is
issued, carrying the current email and password. -/
theorem c5_submit_clears_notification (s : AuthCardState) :
    (applyActions s ((submitSyncActions s).takeWhile
        fun a => ! a.isBackendCall)).authToast = none ∧
    (applyActions s ((submitSyncActions s).takeWhile
        fun a => ! a.isBackendCall)).loading = true ∧
    backendCallsOf ((submitSyncActions s).takeWhile
        fun a => ! a.isBackendCall) = [] ∧
    (applyActions s (submitSyncActions s)).authToast = none ∧
    (applyActions s (submitSyncActions s)).loading = true ∧
    backendCallsOf (submitSyncActions s)
      = [BackendCall.signInEmail s.email s.password] :=
  ⟨rfl, rfl, rfl, rfl, rfl, rfl⟩

/-- C6: while the in-flight flag is set, the submit control is disabled,
a submit event changes nothing and emits nothing, and no event other than
the outstanding response's arrival clears the flag or produces a backend
call. -/
theorem c6_no_double_submit (cfg : AuthCardConfig) (s : AuthCardState)
    (h : s.loading = true) :
    submitButtonDisabled s = true ∧
    step cfg s Event.submitStart = (s, []) ∧
    ∀ e : Event, (∀ r, e ≠ Event.response r) →
      (step cfg s e).1.loading = true ∧
      ((step cfg s e).2.all fun c => ! isBackendExtCall c) = true := by
  refine ⟨h, ?_, ?_⟩
  · simp [step, submitButtonDisabled, h]
  · intro e he
    cases e with
    | pathChange p =>
      refine ⟨?_, rfl⟩
      rw [show (step cfg s (Event.pathChange p)).1
            = setViewWithEffect s (resolveView s.view p) from rfl,
          setViewWithEffect_loading]
      exact h
    | toggleFooter =>
      simp only [step]
      split
      · exact ⟨by rw [setViewWithEffect_loading]; exact h, rfl⟩
      · exact ⟨h, rfl⟩
    | enableMagicLink =>
      simp only [step]
      split
      · exact ⟨h, rfl⟩
      · exact ⟨h, rfl⟩
    | disableMagicLink =>
      simp only [step]
      split
      · exact ⟨h, rfl⟩
      · exact ⟨h, rfl⟩
    | editEmail v => exact ⟨h, rfl⟩
    | editPassword v => exact ⟨h, rfl⟩
    | submitStart => simp [step, submitButtonDisabled, h]
    | response r => exact absurd rfl (he r)

/-- Witness for C6 at a concrete in-flight state: the control is
disabled, a second submit is a no-op, and an unrelated event emits no
backend call. -/
theorem c6_witness :
    submitButtonDisabled ⟨"", "", true, AuthView.login, false, none⟩ = true ∧
    step {} ⟨"", "", true, AuthView.login, false, none⟩ Event.submitStart
      = (⟨"", "", true, AuthView.login, false, none⟩, []) ∧
    ((step {} ⟨"", "", true, AuthView.login, false, none⟩ (Event.editEmail "x")).2.all
        fun c => ! isBackendExtCall c) = true :=
  ⟨(c6_no_double_submit {} ⟨"", "", true, AuthView.login, false, none⟩ rfl).1,
   (c6_no_double_submit {} ⟨"", "", true, AuthView.login, false, none⟩ rfl).2.1,
   ((c6_no_double_submit {} ⟨"", "", true, AuthView.login, false, none⟩ rfl).2.2
      (Event.editEmail "x") (fun _r hr => Event.noConfusion hr)).2⟩

/-- C7 counterexample: on the login view with routing enabled, clicking
the footer toggle emits only a link navigation to `/auth/signup`; the
host navigation function (`navigate`) is not invoked, and the active view
is not swapped. -/
theorem c7_counterexample :
    (step {} ⟨"", "", false, AuthView.login, false, none⟩ Event.toggleFooter).2
      = [ExternalCall.linkNavigate "/auth/signup"] ∧
    ((step {} ⟨"", "", false, AuthView.login, false, none⟩ Event.toggleFooter).2.all
        fun c => ! isNavigateCall c) = true ∧
    (step {} ⟨"", "", false, AuthView.login, false, none⟩ Event.toggleFooter).1.view
      = AuthView.login :=
  ⟨rfl, rfl, rfl⟩

/-- C7 amended: with routing disabled the toggle directly swaps the
active view (login ↔ signup) with no navigation of any kind; with routing
enabled the click leaves the widget state unchanged and navigation is
delegated to the host through the rendered link component, with a fixed
target path per direction (login→`/auth/signup`, signup→`/auth/login`);
the `navigate` function is not invoked in either case. -/
theorem c7_toggle_routing (cfg : AuthCardConfig) (s : AuthCardState) :
    (cfg.disableRouting = true →
      (step cfg s Event.toggleFooter).2 = [] ∧
      (s.view = AuthView.login →
        (step cfg s Event.toggleFooter).1.view = AuthView.signup) ∧
      (s.view = AuthView.signup →
        (step cfg s Event.toggleFooter).1.view = AuthView.login)) ∧
    (cfg.disableRouting = false →
      (step cfg s Event.toggleFooter).1 = s ∧
      (s.view = AuthView.login →
        (step cfg s Event.toggleFooter).2
          = [ExternalCall.linkNavigate "/auth/signup"]) ∧
      (s.view = AuthView.signup →
        (step cfg s Event.toggleFooter).2
          = [ExternalCall.linkNavigate "/auth/login"])) ∧
    ((step cfg s Event.toggleFooter).2.all fun c => ! isNavigateCall c) = true := by
  by_cases hd : cfg.disableRouting = true
  · refine ⟨fun _ => ⟨?_, ?_, ?_⟩, fun hf => ?_, ?_⟩
    · simp [step, hd]
    · intro hv
      simp only [step, if_pos hd]
      rw [setViewWithEffect_view, hv]
      decide
    · intro hv
      simp only [step, if_pos hd]
      rw [setViewWithEffect_view, hv]
      decide
    · rw [hd] at hf
      exact Bool.noConfusion hf
    · simp [step, hd]
  · have hd' : cfg.disableRouting = false := Bool.eq_false_iff.mpr hd
    refine ⟨fun ht => ?_, fun _ => ⟨?_, ?_, ?_⟩, ?_⟩
    · rw [hd'] at ht
      exact Bool.noConfusion ht
    · simp [step, hd']
    · intro hv
      simp [step, hd', hv]
    · intro hv
      simp [step, hd', hv]
    · simp [step, hd', isNavigateCall]

/-- Witness for C7 (amended): concrete direct swap with routing disabled
and concrete link navigation with routing enabled. -/
theorem c7_witness :
    (step ({ disableRouting := true } : AuthCardConfig)
        ⟨"", "", false, AuthView.login, false, none⟩ Event.toggleFooter).1.view
      = AuthView.signup ∧
    (step ({ disableRouting := true } : AuthCardConfig)
        ⟨"", "", false, AuthView.login, false, none⟩ Event.toggleFooter).2 = [] ∧
    (step {} ⟨"", "", false, AuthView.signup, false, none⟩ Event.toggleFooter).2
      = [ExternalCall.linkNavigate "/auth/login"] :=
  ⟨((c7_toggle_routing ({ disableRouting := true } : AuthCardConfig)
      ⟨"", "", false, AuthView.login, false, none⟩).1 rfl).2.1 rfl,
   ((c7_toggle_routing ({ disableRouting := true } : AuthCardConfig)
      ⟨"", "", false, AuthView.login, false, none⟩).1 rfl).1,
   ((c7_toggle_routing {} ⟨"", "", false, AuthView.signup, false, none⟩).2.1 rfl).2.2 rfl⟩

/-- C8: evaluating the submit handler in magic-link mode (login view,
`isMagicLink = true`; the password input is disabled in this mode and
still empty) shows the dispatched backend operation is the password
sign-in call with the empty password — no magic-link request is issued. -/
theorem c8_magic_link_dispatch :
    backendCallsOf (onSubmitActions
        ⟨"a@b.com", "", false, AuthView.login, true, none⟩ ⟨none⟩)
      = [BackendCall.signInEmail "a@b.com" ""] ∧
    ((backendCallsOf (onSubmitActions
        ⟨"a@b.com", "", false, AuthView.login, true, none⟩ ⟨none⟩)).all
      fun c => ! isMagicLinkCall c) = true ∧
    (passwordInputAttrs true).disabled = true :=
  ⟨rfl, rfl, rfl⟩

/-- C9 counterexample: with magic-link mode off, the password input is
still not marked required, contradicting the claim that it is marked
required exactly when magic-link mode is false. -/
theorem c9_counterexample : ¬ (passwordInputAttrs false).required = true := by
  decide

/-- C9 amended: the email input is marked required for every submission;
the password input is never marked required — it is instead disabled
exactly when magic-link mode is on — so an empty password is not
prevented at the input layer. -/
theorem c9_required_marking :
    emailInputAttrs.required = true ∧
    ∀ ml : Bool,
      (passwordInputAttrs ml).required = false ∧
        (passwordInputAttrs ml).disabled = ml :=
  ⟨rfl, fun _ml => ⟨rfl, rfl⟩⟩

/-- C10: for every state — hence every active view and magic-link mode,
both of which the handler closes over but never reads — a submission
issues exactly the password sign-in call with the current email and
password, and no view-specific backend operation. -/
theorem c10_same_backend_call (s : AuthCardState) (resp : SignInResponse) :
    backendCallsOf (onSubmitActions s resp)
      = [BackendCall.signInEmail s.email s.password] := by
  cases hm : errMessage resp.error <;>
    simp [onSubmitActions, submitSyncActions, submitResumeActions, backendCallsOf, hm]

end AuthCard
